import Mathlib

/-!
Shallow embedding of the WallMagic account service
(`app/config.py`, `app/database.py`, `app/main.py`, `app/routes/auth_routes.py`).

Machine integers do not occur; times are modelled as natural-number seconds
(`datetime.utcnow()` becomes an explicit `now : Nat` parameter, `timedelta`
a number of seconds). The SQLAlchemy user store becomes a list of records,
with the two `unique=True` columns (`email`, `username`) enforced by
`storeInsert`. Nondeterministic inputs of the code (bcrypt salt generation,
autoincremented ids, the clock) become explicit parameters.
-/

set_option autoImplicit false

namespace WallMagic

/-- Settings from `app/config.py` (the fields the auth routes consume),
with the defaults declared there. -/
structure Settings where
  debug : Bool := false
  secret_key : String := "your-super-secret-key-change-in-production"
  algorithm : String := "HS256"
  access_token_expire_minutes : Nat := 30
deriving DecidableEq, Repr

/-- The process-wide `settings = get_settings()` singleton. -/
def settings : Settings := {}

/-- Modelled from the spec (§4.1): the bcrypt digest computed by
`passlib.CryptContext(schemes=["bcrypt"])`, whose implementation is a
library dependency absent from `src/`. The digest is a function of the
internally generated salt and the plaintext; the concrete mixing formula
abstracts the bcrypt key schedule, keeping only what the spec relies on:
the output is determined by (salt, plaintext) and verification recomputes
it from the parameters embedded in the stored hash. -/
def bcryptDigest (salt : Nat) (p : String) : Nat :=
  p.toList.foldl (fun a c => a * 31 + c.toNat + 7) (salt * 131 + 13)

/-- Modelled from the spec (§4.1): the opaque hash output, which encodes
the salt and the digest so that verification is self-contained. -/
structure PwHash where
  salt : Nat
  digest : Nat
deriving DecidableEq, Repr

/-- `get_password_hash` (auth_routes.py): `pwd_context.hash(password)`.
The salt bcrypt draws internally is an explicit parameter here. -/
def get_password_hash (password : String) (salt : Nat) : PwHash :=
  ⟨salt, bcryptDigest salt password⟩

/-- `verify_password` (auth_routes.py): `pwd_context.verify(plain, hashed)`;
recomputes the digest from the salt stored in the hash and compares. -/
def verify_password (plain_password : String) (hashed_password : PwHash) : Bool :=
  bcryptDigest hashed_password.salt plain_password == hashed_password.digest

/-- A JWT claim value: the claims the routes build hold strings
(`sub`) and integers (`user_id`, `exp`-as-timestamp). -/
inductive ClaimValue where
  | str (s : String)
  | num (n : Nat)
deriving DecidableEq, Repr

/-- A claim set: a Python dict in insertion order. -/
abbrev Claims := List (String × ClaimValue)

/-- Python `dict.update({k: v})`: replace in place if the key exists,
else append. -/
def updateClaim (cs : Claims) (k : String) (v : ClaimValue) : Claims :=
  if cs.any (fun kv => kv.1 == k) then
    cs.map (fun kv => if kv.1 == k then (k, v) else kv)
  else
    cs ++ [(k, v)]

/-- Dict lookup on a claim set. -/
def lookupClaim (cs : Claims) (k : String) : Option ClaimValue :=
  (cs.find? (fun kv => kv.1 == k)).map (·.2)

/-- Byte serialization of a string (UTF code points). -/
def strBytes (s : String) : List Nat :=
  s.toList.map Char.toNat

/-- Byte serialization of a claim value, tagged by kind. -/
def claimValBytes : ClaimValue → List Nat
  | .str s => 0 :: strBytes s
  | .num n => [1, n]

/-- Byte serialization of a claim set. -/
def claimsBytes (cs : Claims) : List Nat :=
  cs.foldr (fun kv acc => strBytes kv.1 ++ 2 :: claimValBytes kv.2 ++ 3 :: acc) []

/-- Modelled from the spec (§4.2): the symmetric (HMAC-SHA256 class)
signature over the claim set, computed from the process-wide secret and
the algorithm name. The HMAC compression itself is a library dependency
absent from `src/`; what the spec relies on is kept: the signature is a
byte string determined by (secret, algorithm, claims), and verification
recomputes it and compares. -/
def macSign (secret alg : String) (cs : Claims) : List Nat :=
  strBytes secret ++ 9 :: strBytes alg ++ 9 :: claimsBytes cs

/-- A signed token (`jwt.encode` output): the claim set, the header
algorithm, and the signature bytes. -/
structure JWTToken where
  claims : Claims
  alg : String
  sig : List Nat
deriving DecidableEq, Repr

/-- `jose.jwt.encode(claims, secret, algorithm)`. -/
def jwtEncode (secret alg : String) (cs : Claims) : JWTToken :=
  ⟨cs, alg, macSign secret alg cs⟩

/-- `create_access_token` (auth_routes.py): copies the caller's claim
dict, sets `exp = now + (expires_delta or default)` where the default is
`timedelta(minutes=settings.access_token_expire_minutes)`, and signs with
`settings.secret_key` / `settings.algorithm`. `expires_delta` is in
seconds here; the routes always pass `None` for it. -/
def create_access_token (data : Claims) (expires_delta : Option Nat) (now : Nat) : JWTToken :=
  let expire := now + expires_delta.getD (settings.access_token_expire_minutes * 60)
  let to_encode := updateClaim data "exp" (.num expire)
  jwtEncode settings.secret_key settings.algorithm to_encode

/-- Verification errors distinguished by the token verifier. -/
inductive VerificationError where
  | BadSignature
  | Expired
  | Malformed
deriving DecidableEq, Repr

/-- Modelled from the spec (§4.2): `verify(token_string)`. No decode call
exists under `src/` (`jose` is imported but never used for decoding), so
this follows the spec's words: check signature integrity first, rejecting
any mismatch with `BadSignature`; then check `exp` against the current
time, rejecting an elapsed token with `Expired`; a claim set without a
numeric `exp` is `Malformed`; otherwise return the claim set. -/
def jwtVerify (secret alg : String) (now : Nat) (t : JWTToken) : Except VerificationError Claims :=
  if t.sig = macSign secret alg t.claims then
    match lookupClaim t.claims "exp" with
    | some (.num e) => if e ≤ now then .error .Expired else .ok t.claims
    | _ => .error .Malformed
  else
    .error .BadSignature

/-- The `users` table row (class `User` in auth_routes.py). `created_at`
and `updated_at` take `datetime.utcnow()` defaults at insert time. -/
structure User where
  id : Nat
  email : String
  username : String
  hashed_password : PwHash
  full_name : Option String
  created_at : Nat
  updated_at : Nat
deriving DecidableEq, Repr

/-- The user store: the rows of the `users` table, in insertion order. -/
abbrev Store := List User

/-- `get_user_by_email`: `db.query(User).filter(User.email == email).first()`.
SQL `=` on the text column is exact comparison (default binary collation). -/
def get_user_by_email (db : Store) (email : String) : Option User :=
  db.find? (fun u => u.email == email)

/-- `get_user_by_username`: same shape, on the `username` column. -/
def get_user_by_username (db : Store) (username : String) : Option User :=
  db.find? (fun u => u.username == username)

/-- Request schema `UserRegister` (validated body of POST /register). -/
structure UserRegister where
  email : String
  username : String
  password : String
  full_name : Option String
deriving DecidableEq, Repr

/-- Request schema `UserLogin` (validated body of POST /login):
`email: EmailStr` and a bare `password: str` with no Field constraints. -/
structure UserLogin where
  email : String
  password : String
deriving DecidableEq, Repr

/-- Syntactic email validity checked by pydantic's `EmailStr`
(library dependency): one `@`, nonempty local part, a dot in the domain. -/
def isValidEmail (e : String) : Bool :=
  match e.splitOn "@" with
  | [lp, dom] => !lp.isEmpty && !dom.isEmpty && dom.contains '.'
  | _ => false

/-- Pydantic validation of a `UserRegister` body: `EmailStr`, username
length in [3,100], password length in [6,100] (the `Field` bounds). -/
def validateUserRegister (ud : UserRegister) : Bool :=
  isValidEmail ud.email &&
  (3 ≤ ud.username.length && ud.username.length ≤ 100) &&
  (6 ≤ ud.password.length && ud.password.length ≤ 100) &&
  (match ud.full_name with
   | some fn => fn.length ≤ 255
   | none => true)

/-- Pydantic validation of a `UserLogin` body: only `EmailStr`; the
password field carries no constraint. -/
def validateUserLogin (c : UserLogin) : Bool :=
  isValidEmail c.email

/-- Response schema `UserResponse`: the sanitized user view. It has no
`hashed_password` field. -/
structure UserResponse where
  id : Nat
  email : String
  username : String
  full_name : Option String
  created_at : Nat
deriving DecidableEq, Repr

/-- `UserResponse.model_validate(db_user)`: project the ORM row onto the
response schema's fields. -/
def toUserResponse (u : User) : UserResponse :=
  { id := u.id, email := u.email, username := u.username,
    full_name := u.full_name, created_at := u.created_at }

/-- Response schema `Token`. -/
structure Token where
  access_token : JWTToken
  token_type : String := "bearer"
  expires_in : Nat
deriving DecidableEq, Repr

/-- Response schema `AuthResponse`. -/
structure AuthResponse where
  message : String
  user : UserResponse
  token : Token
deriving DecidableEq, Repr

/-- A raised `HTTPException`: status code, detail string, extra headers. -/
structure HTTPErr where
  status_code : Nat
  detail : String
  headers : List (String × String)
deriving DecidableEq, Repr

/-- The login failure exception (auth_routes.py): one constant value
raised both when no user matches the email and when the password fails. -/
def invalidCredErr : HTTPErr :=
  ⟨401, "Invalid email or password", [("WWW-Authenticate", "Bearer")]⟩

/-- What a route invocation can produce: a response body, a raised
`HTTPException` (handled by FastAPI with its own status), or an exception
that escapes to `global_exception_handler` in main.py. -/
inductive RouteOutcome where
  | ok (r : AuthResponse)
  | httpExc (e : HTTPErr)
  | unhandled (exc : String)
deriving DecidableEq, Repr

/-- True when the outcome is a success response. -/
def RouteOutcome.isOk : RouteOutcome → Bool
  | .ok _ => true
  | _ => false

/-- The message of a success response, if any. -/
def RouteOutcome.message : RouteOutcome → Option String
  | .ok r => some r.message
  | _ => none

/-- The commit of `db.add(db_user); db.commit()` against the store. The
`users` table declares `email` and `username` `unique=True`, so a commit
while the store already holds either value raises an `IntegrityError`
(a rolled-back commit writes nothing). -/
def storeInsert (db : Store) (u : User) : Except String Store :=
  if db.any (fun v => v.email == u.email) then
    .error "IntegrityError: UNIQUE constraint failed: users.email"
  else if db.any (fun v => v.username == u.username) then
    .error "IntegrityError: UNIQUE constraint failed: users.username"
  else
    .ok (db ++ [u])

/-- `register` (POST /api/v1/register). `dbRead` is the store state the
session's pre-check queries observe; `dbWrite` is the store state at
commit time. A single-threaded run has `dbRead = dbWrite`; a concurrent
writer between the pre-checks and the commit makes them differ. `salt`
is bcrypt's internal salt, `now` the clock, `nid` the autoincremented id
the insert assigns. Returns the outcome and the resulting store. There is
no try/except around the commit: an `IntegrityError` escapes as an
unhandled exception. -/
def register (dbRead dbWrite : Store) (ud : UserRegister) (salt now nid : Nat) :
    RouteOutcome × Store :=
  if (get_user_by_email dbRead ud.email).isSome then
    (.httpExc ⟨409, "Email already registered", []⟩, dbWrite)
  else if (get_user_by_username dbRead ud.username).isSome then
    (.httpExc ⟨409, "Username already taken", []⟩, dbWrite)
  else
    let hashed_password := get_password_hash ud.password salt
    let db_user : User :=
      { id := nid, email := ud.email, username := ud.username,
        hashed_password := hashed_password, full_name := ud.full_name,
        created_at := now, updated_at := now }
    match storeInsert dbWrite db_user with
    | .error exc => (.unhandled exc, dbWrite)
    | .ok db2 =>
      let access_token :=
        create_access_token
          [("sub", .str db_user.email), ("user_id", .num db_user.id)] none now
      (.ok { message := "User registered successfully",
             user := toUserResponse db_user,
             token := { access_token := access_token,
                        expires_in := settings.access_token_expire_minutes * 60 } },
       db2)

/-- `login` (POST /api/v1/login): look up by email; if absent or the
password does not verify, raise the single `invalidCredErr`; otherwise
issue a token and answer. -/
def login (db : Store) (credentials : UserLogin) (now : Nat) :
    Except HTTPErr AuthResponse :=
  match get_user_by_email db credentials.email with
  | none => .error invalidCredErr
  | some user =>
    if verify_password credentials.password user.hashed_password then
      let access_token :=
        create_access_token [("sub", .str user.email), ("user_id", .num user.id)] none now
      .ok { message := "Login successful",
            user := toUserResponse user,
            token := { access_token := access_token,
                       expires_in := settings.access_token_expire_minutes * 60 } }
    else
      .error invalidCredErr

/-- The JSON body `global_exception_handler` (main.py) returns for an
exception no route handled: status 500, a fixed detail, and the
exception text only when `settings.debug` is set. -/
structure JSONErrorResponse where
  status_code : Nat
  detail : String
  error : String
  path : String
deriving DecidableEq, Repr

/-- `global_exception_handler` (main.py). -/
def global_exception_handler (exc : String) (path : String) : JSONErrorResponse :=
  { status_code := 500,
    detail := "An unexpected error occurred",
    error := if settings.debug then exc else "Internal Server Error",
    path := path }

/-- The transport-level (status, detail) a register outcome surfaces as:
201 on success, the exception's own status for a raised `HTTPException`,
and the global handler's 500 response for an escaped exception. -/
def surfaceRegister (o : RouteOutcome) (path : String) : Nat × String :=
  match o with
  | .ok _ => (201, "")
  | .httpExc e => (e.status_code, e.detail)
  | .unhandled exc =>
    ((global_exception_handler exc path).status_code,
     (global_exception_handler exc path).detail)

/-- ASCII lowercasing of one character (an executable stand-in for
`str.lower()` when stating case-(in)sensitivity facts). -/
def lowerChar (c : Char) : Char :=
  if 65 ≤ c.toNat ∧ c.toNat ≤ 90 then Char.ofNat (c.toNat + 32) else c

/-- ASCII lowercasing of a string. -/
def strToLower (s : String) : String :=
  (s.toList.map lowerChar).asString

/-! Theorems. -/

/-- C1: for every password p, verifying p against the hash produced for p
returns true; and hashing p under two distinct internally drawn salts
produces two different opaque hashes, each of which still verifies
against p. -/
theorem C1_hash_verify_roundtrip (p : String) (s1 s2 : Nat) (hne : s1 ≠ s2) :
    verify_password p (get_password_hash p s1) = true ∧
    get_password_hash p s1 ≠ get_password_hash p s2 ∧
    verify_password p (get_password_hash p s2) = true := by
  refine ⟨?_, ?_, ?_⟩
  · simp [verify_password, get_password_hash]
  · intro h
    exact hne (congrArg PwHash.salt h)
  · simp [verify_password, get_password_hash]

/-- Witness for C1 at password "secret1" and salts 0 and 1. -/
theorem C1_hash_verify_roundtrip_witness :
    verify_password "secret1" (get_password_hash "secret1" 0) = true ∧
    get_password_hash "secret1" 0 ≠ get_password_hash "secret1" 1 ∧
    verify_password "secret1" (get_password_hash "secret1" 1) = true :=
  C1_hash_verify_roundtrip "secret1" 0 1 (by decide)

/-- C2 counterexample: the token the routes issue carries no `iat` claim
at all — `create_access_token` only adds `exp` to the caller's dict — so
the claim set is not {sub, user_id, iat, exp}. -/
theorem C2_counterexample_no_iat :
    lookupClaim (create_access_token
      [("sub", .str "a@x.com"), ("user_id", .num 1)] none 0).claims "iat" = none ∧
    lookupClaim (create_access_token
      [("sub", .str "a@x.com"), ("user_id", .num 1)] none 0).claims "exp" =
      some (.num 1800) := ⟨rfl, rfl⟩

/-- C2 amended: the issued token carries exactly the claim set
{sub: subject, user_id, exp: now + ttl} — no `iat` claim — signed with
the process-wide secret under the configured HS256 algorithm. -/
theorem C2_amended_claim_set (s : String) (uid : Nat) (delta : Option Nat) (now : Nat) :
    create_access_token [("sub", .str s), ("user_id", .num uid)] delta now =
      { claims := [("sub", .str s), ("user_id", .num uid),
                   ("exp", .num (now + delta.getD (settings.access_token_expire_minutes * 60)))],
        alg := settings.algorithm,
        sig := macSign settings.secret_key settings.algorithm
                 [("sub", .str s), ("user_id", .num uid),
                  ("exp", .num (now + delta.getD (settings.access_token_expire_minutes * 60)))] } ∧
    settings.algorithm = "HS256" ∧
    lookupClaim (create_access_token
      [("sub", .str s), ("user_id", .num uid)] delta now).claims "iat" = none :=
  ⟨rfl, rfl, rfl⟩

/-- C3: a login whose email matches no record, and a login whose email
matches a record but whose password fails verification, raise the very
same `HTTPException` value: status 401, detail "Invalid email or
password", `WWW-Authenticate: Bearer` — no observable difference. -/
theorem C3_login_uniform_error (db : Store) (c : UserLogin) (now : Nat)
    (h : get_user_by_email db c.email = none ∨
         ∃ u, get_user_by_email db c.email = some u ∧
              verify_password c.password u.hashed_password = false) :
    login db c now = .error invalidCredErr ∧ invalidCredErr.status_code = 401 := by
  refine ⟨?_, rfl⟩
  rcases h with h | ⟨u, hu, hv⟩
  · simp [login, h]
  · simp [login, hu, hv]

/-- Witness for C3: an unknown email on the empty store, and a wrong
password against a stored user, both yield `invalidCredErr`. -/
theorem C3_login_uniform_error_witness :
    (login [] ⟨"a@x.com", "secret1"⟩ 0 = .error invalidCredErr ∧
      invalidCredErr.status_code = 401) ∧
    (login [⟨1, "a@x.com", "alice", get_password_hash "secret1" 0, none, 0, 0⟩]
        ⟨"a@x.com", "wrong"⟩ 0 = .error invalidCredErr ∧
      invalidCredErr.status_code = 401) :=
  ⟨C3_login_uniform_error [] ⟨"a@x.com", "secret1"⟩ 0 (Or.inl rfl),
   C3_login_uniform_error
     [⟨1, "a@x.com", "alice", get_password_hash "secret1" 0, none, 0, 0⟩]
     ⟨"a@x.com", "wrong"⟩ 0 (Or.inr ⟨_, rfl, by decide⟩)⟩

/-- C4: a registration rejected for a duplicate email or a duplicate
username raises a 409 `HTTPException` from the pre-checks, before any
write: the resulting store equals the store it started from. -/
theorem C4_reject_leaves_store_unchanged (db : Store) (ud : UserRegister)
    (salt now nid : Nat)
    (h : (get_user_by_email db ud.email).isSome = true ∨
         (get_user_by_username db ud.username).isSome = true) :
    (∃ e, (register db db ud salt now nid).1 = .httpExc e ∧ e.status_code = 409) ∧
    (register db db ud salt now nid).2 = db := by
  by_cases he : (get_user_by_email db ud.email).isSome = true
  · exact ⟨⟨⟨409, "Email already registered", []⟩, by simp [register, he], rfl⟩,
      by simp [register, he]⟩
  · have hu : (get_user_by_username db ud.username).isSome = true := h.resolve_left he
    exact ⟨⟨⟨409, "Username already taken", []⟩, by simp [register, he, hu], rfl⟩,
      by simp [register, he, hu]⟩

/-- Witness for C4: re-registering a stored email is rejected and the
one-row store is unchanged. -/
theorem C4_reject_leaves_store_unchanged_witness :
    (∃ e, (register [⟨1, "a@x.com", "alice", get_password_hash "secret1" 0, none, 0, 0⟩]
             [⟨1, "a@x.com", "alice", get_password_hash "secret1" 0, none, 0, 0⟩]
             ⟨"a@x.com", "bob", "secret2", none⟩ 3 5 2).1 = .httpExc e ∧
          e.status_code = 409) ∧
    (register [⟨1, "a@x.com", "alice", get_password_hash "secret1" 0, none, 0, 0⟩]
       [⟨1, "a@x.com", "alice", get_password_hash "secret1" 0, none, 0, 0⟩]
       ⟨"a@x.com", "bob", "secret2", none⟩ 3 5 2).2 =
      [⟨1, "a@x.com", "alice", get_password_hash "secret1" 0, none, 0, 0⟩] :=
  C4_reject_leaves_store_unchanged
    [⟨1, "a@x.com", "alice", get_password_hash "secret1" 0, none, 0, 0⟩]
    ⟨"a@x.com", "bob", "secret2", none⟩ 3 5 2 (Or.inl (by decide))

/-- C5 counterexample: the lookup is exact string comparison, not
case-normalized. With "alice@x.com" stored, the same email written
"Alice@x.com" matches no record: login with the correct password is
rejected with `invalidCredErr`, and a fresh registration under
"Alice@x.com" sails past the duplicate-email check and creates a second
user. -/
theorem C5_counterexample_case_sensitive :
    get_user_by_email
      [⟨1, "alice@x.com", "alice", get_password_hash "secret1" 0, none, 0, 0⟩]
      "Alice@x.com" = none ∧
    strToLower "Alice@x.com" = strToLower "alice@x.com" ∧
    login [⟨1, "alice@x.com", "alice", get_password_hash "secret1" 0, none, 0, 0⟩]
      ⟨"Alice@x.com", "secret1"⟩ 0 = .error invalidCredErr ∧
    ((register [⟨1, "alice@x.com", "alice", get_password_hash "secret1" 0, none, 0, 0⟩]
        [⟨1, "alice@x.com", "alice", get_password_hash "secret1" 0, none, 0, 0⟩]
        ⟨"Alice@x.com", "bob", "secret2", none⟩ 5 9 2).1).isOk = true :=
  ⟨rfl, by decide, rfl, rfl⟩

/-- C5 amended: registration's duplicate-email check and login's lookup
match by exact, case-sensitive string equality on the email: a lookup
returns only a stored record whose email is literally equal to the
supplied string, and returns nothing when every stored email differs
from it (in particular when they differ only in letter case). -/
theorem C5_amended_exact_email_match (db : Store) (e : String) :
    (∀ u, get_user_by_email db e = some u → u ∈ db ∧ u.email = e) ∧
    ((∀ u, u ∈ db → u.email ≠ e) → get_user_by_email db e = none) := by
  constructor
  · intro u hu
    refine ⟨List.mem_of_find?_eq_some hu, ?_⟩
    have hp := List.find?_some hu
    simpa using hp
  · intro h
    apply List.find?_eq_none.mpr
    intro u hu
    simpa using h u hu

/-- Witness for C5 amended: on a store holding "alice@x.com", the lookup
of "Alice@x.com" returns nothing. -/
theorem C5_amended_exact_email_match_witness :
    get_user_by_email
      [⟨1, "alice@x.com", "alice", get_password_hash "secret1" 0, none, 0, 0⟩]
      "Bob@x.com" = none :=
  (C5_amended_exact_email_match
    [⟨1, "alice@x.com", "alice", get_password_hash "secret1" 0, none, 0, 0⟩]
    "Bob@x.com").2 (by decide)

/-- C6: a uniqueness violation raised at commit time (a concurrent
registration won the race after the pre-checks read an empty store) is
not caught by `register` — there is no try/except around the commit —
so it escapes to `global_exception_handler` and surfaces as a generic
500 "An unexpected error occurred", not as the 409 duplicate error the
spec requires. -/
theorem C6_race_surfaces_as_500 :
    (register [] [⟨1, "a@x.com", "alice", get_password_hash "secret1" 0, none, 0, 0⟩]
        ⟨"a@x.com", "alice2", "secret2", none⟩ 3 5 2).1 =
      .unhandled "IntegrityError: UNIQUE constraint failed: users.email" ∧
    surfaceRegister
      (register [] [⟨1, "a@x.com", "alice", get_password_hash "secret1" 0, none, 0, 0⟩]
          ⟨"a@x.com", "alice2", "secret2", none⟩ 3 5 2).1
      "/api/v1/register" = (500, "An unexpected error occurred") ∧
    (500 : Nat) ≠ 409 :=
  ⟨rfl, rfl, by decide⟩

/-- Verifying a token signed with the same secret/algorithm reduces to
the expiry check on its `exp` claim. -/
theorem jwtVerify_encode (secret alg : String) (cs : Claims) (now e : Nat)
    (hl : lookupClaim cs "exp" = some (.num e)) :
    jwtVerify secret alg now (jwtEncode secret alg cs) =
      if e ≤ now then .error .Expired else .ok cs := by
  unfold jwtVerify jwtEncode
  simp [hl]

/-- A token whose signature field differs from the recomputed signature
over its claims is rejected with `BadSignature`. -/
theorem jwtVerify_badsig (secret alg alg2 : String) (cs : Claims) (now : Nat)
    (sig : List Nat) (h : sig ≠ macSign secret alg cs) :
    jwtVerify secret alg now ⟨cs, alg2, sig⟩ = .error .BadSignature := by
  unfold jwtVerify
  simp [h]

/-- C7: for a token the routes issue, verification after the ttl has
elapsed fails with `Expired` (never `BadSignature`, the signature being
intact), and verification of the same token with any altered signature
fails with `BadSignature`. -/
theorem C7_verify_expired_and_tampered (s : String) (uid : Nat)
    (delta : Option Nat) (now0 now : Nat)
    (hexp : now0 + delta.getD (settings.access_token_expire_minutes * 60) ≤ now) :
    jwtVerify settings.secret_key settings.algorithm now
      (create_access_token [("sub", .str s), ("user_id", .num uid)] delta now0) =
      .error .Expired ∧
    (∀ sig, sig ≠ (create_access_token
        [("sub", .str s), ("user_id", .num uid)] delta now0).sig →
      jwtVerify settings.secret_key settings.algorithm now
        { create_access_token [("sub", .str s), ("user_id", .num uid)] delta now0
          with sig := sig } = .error .BadSignature) := by
  have hl : lookupClaim
      (updateClaim [("sub", ClaimValue.str s), ("user_id", ClaimValue.num uid)] "exp"
        (.num (now0 + delta.getD (settings.access_token_expire_minutes * 60)))) "exp" =
      some (.num (now0 + delta.getD (settings.access_token_expire_minutes * 60))) := rfl
  constructor
  · have h1 := jwtVerify_encode settings.secret_key settings.algorithm
      (updateClaim [("sub", ClaimValue.str s), ("user_id", ClaimValue.num uid)] "exp"
        (.num (now0 + delta.getD (settings.access_token_expire_minutes * 60))))
      now (now0 + delta.getD (settings.access_token_expire_minutes * 60)) hl
    rw [if_pos hexp] at h1
    exact h1
  · intro sig hsig
    exact jwtVerify_badsig settings.secret_key settings.algorithm settings.algorithm
      (updateClaim [("sub", ClaimValue.str s), ("user_id", ClaimValue.num uid)] "exp"
        (.num (now0 + delta.getD (settings.access_token_expire_minutes * 60))))
      now sig hsig

/-- Witness for C7: the token issued at time 0 with the default 1800 s
ttl is `Expired` at time 1800, and the same token with its signature
replaced is `BadSignature`. -/
theorem C7_verify_expired_and_tampered_witness :
    jwtVerify settings.secret_key settings.algorithm 1800
      (create_access_token [("sub", .str "a@x.com"), ("user_id", .num 1)] none 0) =
      .error .Expired ∧
    jwtVerify settings.secret_key settings.algorithm 1800
      { create_access_token [("sub", .str "a@x.com"), ("user_id", .num 1)] none 0
        with sig := [] } = .error .BadSignature :=
  ⟨(C7_verify_expired_and_tampered "a@x.com" 1 none 0 1800 (by decide)).1,
   (C7_verify_expired_and_tampered "a@x.com" 1 none 0 1800 (by decide)).2 [] (by decide)⟩

/-- C8: no output carries the stored hash or the plaintext password.
The sanitized user view is insensitive to the stored hash (the
`UserResponse` schema has no hash field); the whole register outcome is
insensitive to the supplied password (so no success or error output can
encode it); every login error is the fixed `invalidCredErr` text; every
register `HTTPException` detail is one of two fixed texts; and the
global handler's surfaced detail is a fixed text. -/
theorem C8_no_secret_leak :
    (∀ (u : User) (h : PwHash),
      toUserResponse { u with hashed_password := h } = toUserResponse u) ∧
    (∀ (db : Store) (ud : UserRegister) (p1 p2 : String) (salt now nid : Nat),
      (register db db { ud with password := p1 } salt now nid).1 =
      (register db db { ud with password := p2 } salt now nid).1) ∧
    (∀ (db : Store) (c : UserLogin) (now : Nat) (e : HTTPErr),
      login db c now = .error e →
        e = invalidCredErr ∧ e.detail = "Invalid email or password") ∧
    (∀ (dbR dbW : Store) (ud : UserRegister) (salt now nid : Nat) (e : HTTPErr),
      (register dbR dbW ud salt now nid).1 = .httpExc e →
        e.detail = "Email already registered" ∨ e.detail = "Username already taken") ∧
    (∀ (exc path : String),
      (global_exception_handler exc path).detail = "An unexpected error occurred") := by
  refine ⟨?_, ?_, ?_, ?_, ?_⟩
  · intro u h
    simp [toUserResponse]
  · intro db ud p1 p2 salt now nid
    simp only [register, storeInsert, toUserResponse]
    by_cases h1 : (get_user_by_email db ud.email).isSome
    · simp [h1]
    · by_cases h2 : (get_user_by_username db ud.username).isSome
      · simp [h1, h2]
      · by_cases h3 : db.any (fun v => v.email == ud.email)
        · simp [h1, h2, h3]
        · by_cases h4 : db.any (fun v => v.username == ud.username)
          · simp [h1, h2, h3, h4]
          · simp [h1, h2, h3, h4]
  · intro db c now e he
    unfold login at he
    split at he
    · cases he
      exact ⟨rfl, rfl⟩
    · split at he
      · cases he
      · cases he
        exact ⟨rfl, rfl⟩
  · intro dbR dbW ud salt now nid e he
    simp only [register] at he
    split at he
    · cases he
      exact Or.inl rfl
    · split at he
      · cases he
        exact Or.inr rfl
      · split at he <;> cases he
  · intro exc path
    rfl

/-- Witness for C8: the user view is unchanged under a different stored
hash, and a concrete failing login's error carries the fixed text. -/
theorem C8_no_secret_leak_witness :
    toUserResponse
      { (⟨1, "a@x.com", "alice", get_password_hash "secret1" 0, none, 0, 0⟩ : User)
        with hashed_password := get_password_hash "other" 5 } =
      toUserResponse ⟨1, "a@x.com", "alice", get_password_hash "secret1" 0, none, 0, 0⟩ ∧
    invalidCredErr = invalidCredErr ∧ invalidCredErr.detail = "Invalid email or password" :=
  ⟨C8_no_secret_leak.1 ⟨1, "a@x.com", "alice", get_password_hash "secret1" 0, none, 0, 0⟩
     (get_password_hash "other" 5),
   C8_no_secret_leak.2.2.1 [] ⟨"a@x.com", "pw"⟩ 0 invalidCredErr rfl⟩

/-- C9 counterexample: a concrete successful registration answers with
message "User registered successfully", not "registered", and a concrete
successful login answers with "Login successful", not "login ok". -/
theorem C9_counterexample_messages :
    ((register [] [] ⟨"a@x.com", "alice", "secret1", none⟩ 0 0 1).1).message =
      some "User registered successfully" ∧
    "User registered successfully" ≠ "registered" ∧
    (login [⟨1, "a@x.com", "alice", get_password_hash "secret1" 0, none, 0, 0⟩]
        ⟨"a@x.com", "secret1"⟩ 0).toOption.map AuthResponse.message =
      some "Login successful" ∧
    "Login successful" ≠ "login ok" :=
  ⟨rfl, by decide, rfl, by decide⟩

/-- C9 amended: every successful registration's message is
"User registered successfully" and every successful login's message is
"Login successful". -/
theorem C9_amended_messages (dbR dbW : Store) (ud : UserRegister)
    (salt now nid : Nat) (db : Store) (c : UserLogin) (now2 : Nat) :
    (∀ r, (register dbR dbW ud salt now nid).1 = .ok r →
      r.message = "User registered successfully") ∧
    (∀ r, login db c now2 = .ok r → r.message = "Login successful") := by
  constructor
  · intro r hr
    simp only [register] at hr
    split at hr
    · cases hr
    · split at hr
      · cases hr
      · split at hr
        · cases hr
        · cases hr
          rfl
  · intro r hr
    unfold login at hr
    split at hr
    · cases hr
    · split at hr
      · cases hr
        rfl
      · cases hr

/-- Witness for C9 amended, at the concrete successful register and
login of the end-to-end example. -/
theorem C9_amended_messages_witness :
    (∀ r, (register [] [] ⟨"a@x.com", "alice", "secret1", none⟩ 0 0 1).1 = .ok r →
      r.message = "User registered successfully") ∧
    (∀ r, login [⟨1, "a@x.com", "alice", get_password_hash "secret1" 0, none, 0, 0⟩]
        ⟨"a@x.com", "secret1"⟩ 0 = .ok r → r.message = "Login successful") :=
  C9_amended_messages [] [] ⟨"a@x.com", "alice", "secret1", none⟩ 0 0 1
    [⟨1, "a@x.com", "alice", get_password_hash "secret1" 0, none, 0, 0⟩]
    ⟨"a@x.com", "secret1"⟩ 0

/-- C10: the login schema constrains only the email — no password length
bounds — so a password outside registration's [6,100] window passes
login validation (which equals the bare email check), would fail
registration validation, and login proceeds to lookup/verification,
answering `invalidCredErr` when no stored user matches and verifies. -/
theorem C10_login_no_password_length_check (db : Store) (e p : String) (now : Nat)
    (hlen : ¬ (6 ≤ p.length ∧ p.length ≤ 100))
    (hfail : get_user_by_email db e = none ∨
             ∃ u, get_user_by_email db e = some u ∧
                  verify_password p u.hashed_password = false) :
    validateUserLogin ⟨e, p⟩ = isValidEmail e ∧
    validateUserRegister ⟨e, "someuser", p, none⟩ = false ∧
    login db ⟨e, p⟩ now = .error invalidCredErr := by
  refine ⟨rfl, ?_, ?_⟩
  · simp only [validateUserRegister, Bool.and_eq_false_iff, decide_eq_false_iff_not]
    rcases Decidable.not_and_iff_or_not.mp hlen with h | h
    · exact Or.inl (Or.inr (Or.inl h))
    · exact Or.inl (Or.inr (Or.inr h))
  · rcases hfail with h | ⟨u, hu, hv⟩
    · simp [login, h]
    · simp [login, hu, hv]

/-- Witness for C10: the empty password on the empty store. -/
theorem C10_login_no_password_length_check_witness :
    validateUserLogin ⟨"a@x.com", ""⟩ = isValidEmail "a@x.com" ∧
    validateUserRegister ⟨"a@x.com", "someuser", "", none⟩ = false ∧
    login [] ⟨"a@x.com", ""⟩ 0 = .error invalidCredErr :=
  C10_login_no_password_length_check [] "a@x.com" "" 0 (by decide) (Or.inl rfl)

end WallMagic
